import Mathlib

/-!
Shallow embedding of the retrieval-and-answer pipeline of `src/ia.py` from the
asistente-fincas-ia repository, together with theorems checking the
specification's claims about it.

Python strings are modeled as Lean `String` (with helpers over `List Char`),
floats as real numbers, dictionaries as association lists, and the external
collaborators (embedding service, vector-search RPC, completion model) as an
explicit environment of fallible functions.  Functions keep the source's
Spanish names.
-/

namespace AsistenteFincas

/-! ### Text normalization: `sanitizar_pregunta` (src/ia.py, lines 140-162)

The source removes, from the stripped question, every character matching the
regex class `[^\w\sáéíóúñ¿?]` and then truncates to `max_length` characters.
Python's `\w` is Unicode-aware; it is modeled here as ASCII alphanumerics,
the underscore, and the Spanish accented letters (both cases), which classifies
every character appearing in the specification's examples exactly as Python
does. -/

/-- Model of the `\w` class of the regex in `sanitizar_pregunta`. -/
def esCaracterDePalabra (c : Char) : Bool :=
  c.isAlphanum || c == '_' ||
    ['á', 'é', 'í', 'ó', 'ú', 'ñ', 'Á', 'É', 'Í', 'Ó', 'Ú', 'Ñ'].contains c

/-- A character survives the substitution `re.sub(r'[^\w\sáéíóúñ¿?]', '', ·)`
iff it is a word character, whitespace, or one of `á é í ó ú ñ ¿ ?`. -/
def esCaracterPermitido (c : Char) : Bool :=
  esCaracterDePalabra c || c.isWhitespace ||
    ['á', 'é', 'í', 'ó', 'ú', 'ñ', '¿', '?'].contains c

/-- Python's `str.strip()`: remove leading and trailing whitespace. -/
def pyStrip (l : List Char) : List Char :=
  ((l.dropWhile Char.isWhitespace).reverse.dropWhile Char.isWhitespace).reverse

/-- `sanitizar_pregunta` (src/ia.py, lines 140-162): strip, drop disallowed
characters, and truncate to `max_length` characters. -/
def sanitizar_pregunta (pregunta : String) (max_length : ℕ := 500) : String :=
  ⟨((pyStrip pregunta.data).filter esCaracterPermitido).take max_length⟩

/-! ### Context truncation: `truncar_contexto` (src/ia.py, lines 200-225)

`contexto.split()` in Python splits on runs of whitespace and never yields
empty words; it is modeled by `wordsOf`.  `" ".join(palabras[:max_palabras])`
is modeled by `pyJoin [' ']`. -/

/-- Negation of `Char.isWhitespace`, the predicate delimiting words. -/
def noEsEspacio (c : Char) : Bool := !c.isWhitespace

/-- Helper for `wordsOf`: `acc` holds the (reversed) word being read. -/
def wordsOfGo (acc : List Char) : List Char → List (List Char)
  | [] => if acc.isEmpty then [] else [acc.reverse]
  | c :: cs =>
    if c.isWhitespace then
      if acc.isEmpty then wordsOfGo [] cs else acc.reverse :: wordsOfGo [] cs
    else wordsOfGo (c :: acc) cs

/-- Python's `str.split()` with no separator: the maximal whitespace-free
nonempty chunks, in order. -/
def wordsOf (l : List Char) : List (List Char) := wordsOfGo [] l

/-- The whitespace-delimited words of a string (Python `s.split()`). -/
def palabras (s : String) : List String :=
  (wordsOf s.data).map fun w => ⟨w⟩

/-- Python's `sep.join(l)`. -/
def pyJoin (sep : List Char) : List (List Char) → List Char
  | [] => []
  | [w] => w
  | w :: ws => w ++ sep ++ pyJoin sep ws

/-- Python's `sep.join(l)` on strings. -/
def pyJoinStr (sep : String) (l : List String) : String :=
  ⟨pyJoin sep.data (l.map String.data)⟩

/-- `truncar_contexto` (src/ia.py, lines 200-225): if the word count exceeds
`max_palabras`, rejoin the first `max_palabras` words with single spaces;
otherwise return the context unchanged. -/
def truncar_contexto (contexto : String) (max_palabras : ℕ := 1500) : String :=
  if max_palabras < (wordsOf contexto.data).length then
    ⟨pyJoin [' '] ((wordsOf contexto.data).take max_palabras)⟩
  else contexto

/-! ### Cosine similarity: `similitud_coseno` (src/ia.py, lines 168-194)

Floats are modeled as real numbers.  `np.linalg.norm` of a 1-D array is the
square root of the sum of squares, and `np.dot` of two 1-D arrays of equal
length is the sum of componentwise products. -/

/-- Sum of squares of a vector. -/
def sumaCuadrados (v : List ℝ) : ℝ := (v.map fun x => x ^ 2).sum

/-- `np.linalg.norm` of a 1-D array. -/
noncomputable def norma (v : List ℝ) : ℝ := Real.sqrt (sumaCuadrados v)

/-- `np.dot` of two 1-D arrays (defined when the lengths agree). -/
def productoPunto (v1 v2 : List ℝ) : ℝ :=
  (List.zipWith (fun a b => a * b) v1 v2).sum

/-- `similitud_coseno` (src/ia.py, lines 168-194): `0.0` when either norm is
zero, otherwise the normalized dot product. -/
noncomputable def similitud_coseno (v1 v2 : List ℝ) : ℝ :=
  if norma v1 = 0 ∨ norma v2 = 0 then 0
  else productoPunto v1 v2 / (norma v1 * norma v2)

/-- The error `np.dot` raises on 1-D arrays of different lengths. -/
inductive NumpyError
  | valueError
deriving DecidableEq

/-- `similitud_coseno` with numpy's shape behavior made explicit: the norms of
the two arrays are computed independently and the zero-norm guard returns
before `np.dot` runs, so a zero-norm pair yields `0.0` even when the
dimensions differ; otherwise `np.dot` raises a generic `ValueError` when the
lengths differ.  No dimension check of its own appears in the source. -/
noncomputable def similitud_coseno_np (v1 v2 : List ℝ) : Except NumpyError ℝ :=
  if norma v1 = 0 ∨ norma v2 = 0 then .ok 0
  else if v1.length = v2.length then
    .ok (productoPunto v1 v2 / (norma v1 * norma v2))
  else .error .valueError

/-! ### Ranking (src/ia.py, lines 290-292)

`resultados.sort(key=lambda x: x[0], reverse=True)` is Python's stable sort,
in descending order of score; it is modeled by `List.mergeSort` with the
comparison `b.1 ≤ a.1`, which is likewise stable (equal scores keep their
original order).  The score type is kept abstract behind a linear order, since
none of the claims about the surrounding pipeline depend on how scores are
computed. -/

/-- The comparison realizing `key=lambda x: x[0], reverse=True`. -/
def comparaDescendente {σ β : Type} [LinearOrder σ] (a b : σ × β) : Bool :=
  decide (b.1 ≤ a.1)

/-- Line 291: `resultados.sort(key=lambda x: x[0], reverse=True)`. -/
def ordenar_resultados {σ β : Type} [LinearOrder σ] (resultados : List (σ × β)) :
    List (σ × β) :=
  resultados.mergeSort comparaDescendente

/-- Line 292: keep the first `k` sorted entries and project out the text. -/
def seleccionar_top_k {σ β : Type} [LinearOrder σ] (resultados : List (σ × β))
    (k : ℕ) : List β :=
  ((ordenar_resultados resultados).take k).map Prod.snd

/-! ### Circuit breaker on `responder_con_gpt` (src/ia.py, line 307)

`responder_con_gpt` is wrapped by `@circuit(failure_threshold=3,
recovery_timeout=60)` from the external `circuitbreaker` package; only the
decorator line with its two parameters is in the repository. -/

/-- State of the breaker: closed with a consecutive-failure count, or open
since a given instant (times in seconds, modeled as naturals). -/
inductive EstadoCircuito
  | cerrado (fallos : ℕ)
  | abierto (desde : ℕ)
deriving DecidableEq

/-- Outcome of the underlying external call, were it attempted. -/
inductive ResultadoLlamada
  | exito
  | fallo
deriving DecidableEq

/-- What the wrapped function's caller observes. -/
inductive SalidaLlamada
  | respuesta (r : ResultadoLlamada)
  | circuitOpenError
deriving DecidableEq

/-- Modelled from the spec: the `circuitbreaker` package's decorator, whose
code is not in the repository.  One call to the wrapped function: while
closed, calls pass through, a success resets the consecutive-failure counter
and a failure increments it, opening the circuit at the threshold; while open
and before the recovery timeout, the call is rejected with `CircuitOpenError`
and no external call is attempted (the outcome ignores `r`); once the timeout
has elapsed, one half-open trial call passes through, closing the circuit on
success and reopening it on failure. -/
def circuito_paso (failure_threshold recovery_timeout : ℕ)
    (s : EstadoCircuito) (ahora : ℕ) (r : ResultadoLlamada) :
    SalidaLlamada × EstadoCircuito :=
  match s with
  | .cerrado fallos =>
    match r with
    | .exito => (.respuesta .exito, .cerrado 0)
    | .fallo =>
      if failure_threshold ≤ fallos + 1 then (.respuesta .fallo, .abierto ahora)
      else (.respuesta .fallo, .cerrado (fallos + 1))
  | .abierto desde =>
    if ahora < desde + recovery_timeout then (.circuitOpenError, s)
    else
      match r with
      | .exito => (.respuesta .exito, .cerrado 0)
      | .fallo => (.respuesta .fallo, .abierto ahora)

/-- The breaker instance wrapping `responder_con_gpt`: `failure_threshold=3`,
`recovery_timeout=60` (src/ia.py, line 307). -/
def circuito_gpt :
    EstadoCircuito → ℕ → ResultadoLlamada → SalidaLlamada × EstadoCircuito :=
  circuito_paso 3 60

/-! ### Retrieval and orchestration (src/ia.py, lines 231-301 and 363-418)

The external collaborators are an explicit environment of fallible functions;
the embedding entry type `ε` and score type `σ` are abstract.  Each pipeline
function also returns the list of external calls it performed, so that claims
about which calls happen (cache idempotence, over-fetch count, generation on
empty context) can be stated. -/

/-- A row returned by the `vector_search` RPC.  `embedding_vector` is `none`
when the field is missing, null, or not a list; `contenido` defaults to the
empty string as in `doc.get("contenido", "")`. -/
structure Doc (ε : Type) where
  embedding_vector : Option (List ε)
  contenido : String
deriving DecidableEq

/-- The failures a pipeline step can raise. -/
inductive ErrorPipeline
  | errorConexion
  | errorEmbedding
  | errorBusqueda
  | errorGeneracion
  | errorCircuitoAbierto
deriving DecidableEq

/-- The external collaborators of the pipeline. -/
structure Entorno (ε σ : Type) where
  conectar_supabase : Except ErrorPipeline Unit
  vectorizar : String → Except ErrorPipeline (List ε)
  vector_search : List ε → ℕ → Except ErrorPipeline (List (Doc ε))
  gpt : String → String → Except ErrorPipeline String

/-- An external call performed by the pipeline, with its arguments. -/
inductive Llamada
  | llamadaEmbedding
  | llamadaBusqueda (match_count : ℕ)
  | llamadaGpt (pregunta contexto : String)
deriving DecidableEq

/-- Lines 276-283: a row takes part in ranking iff its embedding field is a
non-empty list. -/
def valido {ε : Type} (d : Doc ε) : Option (List ε) :=
  match d.embedding_vector with
  | some e => if e.isEmpty then none else some e
  | none => none

/-- Lines 266-297: the pure part of `obtener_contexto_relevante` after the RPC
returns.  No rows, or no row with a valid embedding, yields the empty string;
otherwise the valid rows are scored, ranked, the top `k` texts joined with a
blank line, and the result word-truncated. -/
def procesar_filas {ε σ : Type} [LinearOrder σ] (sim : List ε → List ε → σ)
    (pregunta_vector : List ε) (rows : List (Doc ε)) (k : ℕ) : String :=
  if rows.isEmpty then ""
  else if (rows.filterMap fun d =>
      (valido d).map fun e => (sim pregunta_vector e, d.contenido)).isEmpty then ""
  else
    truncar_contexto (pyJoinStr "\n\n" (seleccionar_top_k
      (rows.filterMap fun d =>
        (valido d).map fun e => (sim pregunta_vector e, d.contenido)) k))

/-- `obtener_contexto_relevante` (src/ia.py, lines 231-301): embed the
question, request `k * 2` candidates from the `vector_search` RPC, and process
the returned rows.  Errors from either external call propagate. -/
def obtener_contexto_relevante {ε σ : Type} [LinearOrder σ] (env : Entorno ε σ)
    (sim : List ε → List ε → σ) (pregunta : String) (k : ℕ) :
    Except ErrorPipeline String × List Llamada :=
  match env.vectorizar pregunta with
  | .error e => (.error e, [.llamadaEmbedding])
  | .ok pregunta_vector =>
    match env.vector_search pregunta_vector (k * 2) with
    | .error e => (.error e, [.llamadaEmbedding, .llamadaBusqueda (k * 2)])
    | .ok rows =>
      (.ok (procesar_filas sim pregunta_vector rows k),
       [.llamadaEmbedding, .llamadaBusqueda (k * 2)])

/-- `TOP_K` (src/ia.py, line 49, default value). -/
def TOP_K : ℕ := 3

/-- Line 395: the message for an empty sanitized question. -/
def mensajePreguntaInvalida : String := "Por favor, formula una pregunta válida."

/-- Line 418: the message every caught exception collapses to. -/
def mensajeErrorGenerico : String :=
  "Hubo un problema al procesar tu solicitud. Intenta más tarde."

/-- `responder_pregunta` (src/ia.py, lines 365-418): sanitize; reject an empty
question; answer from the cache on an exact hit; otherwise connect, retrieve
context, generate, cache and return, collapsing any raised error into the
generic message.  Returns the answer, the updated cache, and the external
calls performed. -/
def responder_pregunta {ε σ : Type} [LinearOrder σ] (env : Entorno ε σ)
    (sim : List ε → List ε → σ) (cache : List (String × String))
    (pregunta : String) (user_id : Option String := none) :
    String × List (String × String) × List Llamada :=
  let p := sanitizar_pregunta pregunta
  if p = "" then (mensajePreguntaInvalida, cache, [])
  else
    match cache.lookup p with
    | some respuesta => (respuesta, cache, [])
    | none =>
      match env.conectar_supabase with
      | .error _ => (mensajeErrorGenerico, cache, [])
      | .ok _ =>
        match obtener_contexto_relevante env sim p TOP_K with
        | (.error _, llamadas) => (mensajeErrorGenerico, cache, llamadas)
        | (.ok contexto, llamadas) =>
          match env.gpt p contexto with
          | .error _ =>
            (mensajeErrorGenerico, cache, llamadas ++ [.llamadaGpt p contexto])
          | .ok respuesta =>
            (respuesta, (p, respuesta) :: cache,
             llamadas ++ [.llamadaGpt p contexto])

/-- A concrete instance of the environment, used to instantiate the theorems
below: the connection succeeds, every question embeds to `[1]`, the vector
search returns no rows, and the model answers a fixed string. -/
def entornoPrueba : Entorno ℕ ℕ where
  conectar_supabase := .ok ()
  vectorizar := fun _ => .ok [1]
  vector_search := fun _ _ => .ok []
  gpt := fun _ _ => .ok "la respuesta"

/-- A trivial similarity function on the concrete instance. -/
def simPrueba : List ℕ → List ℕ → ℕ := fun _ _ => 0

/-! ## Theorems -/

/-- C7 counterexample: the regex class `[^\w\sáéíóúñ¿?]` of
`sanitizar_pregunta` keeps `?`, so the sanitized example still ends in `?`,
refuting the claimed output `"¿Cómo contacto al portero"`. -/
theorem sanitizar_ejemplo_contraejemplo :
    sanitizar_pregunta "¿Cómo contacto al portero?!@#$" ≠ "¿Cómo contacto al portero" := by
  decide

/-- C7 (amended): `sanitizar_pregunta` applied to
`"¿Cómo contacto al portero?!@#$"` yields `"¿Cómo contacto al portero?"`: the
punctuation noise `!@#$` is stripped while `¿`, `?` and the accented letters
are retained. -/
theorem sanitizar_ejemplo :
    sanitizar_pregunta "¿Cómo contacto al portero?!@#$" = "¿Cómo contacto al portero?" := by
  decide

/-- C3: the circuit breaker wrapping `responder_con_gpt` (threshold 3,
recovery 60s): three consecutive failures from the initial closed state open
the circuit; while open, every call before the recovery timeout yields
`CircuitOpenError` immediately, with the state unchanged and the outcome
independent of the underlying call (no external call attempted); once 60
seconds have elapsed, one half-open trial call passes through — success
closes the circuit, failure reopens it. -/
theorem circuito_gpt_tres_fallos (t1 t2 t3 t : ℕ) (r : ResultadoLlamada) :
    circuito_gpt (.cerrado 0) t1 .fallo = (.respuesta .fallo, .cerrado 1) ∧
    circuito_gpt (.cerrado 1) t2 .fallo = (.respuesta .fallo, .cerrado 2) ∧
    circuito_gpt (.cerrado 2) t3 .fallo = (.respuesta .fallo, .abierto t3) ∧
    (t < t3 + 60 →
      circuito_gpt (.abierto t3) t r = (.circuitOpenError, .abierto t3)) ∧
    (t3 + 60 ≤ t →
      circuito_gpt (.abierto t3) t .exito = (.respuesta .exito, .cerrado 0) ∧
      circuito_gpt (.abierto t3) t .fallo = (.respuesta .fallo, .abierto t)) := by
  refine ⟨rfl, rfl, rfl, ?_, ?_⟩
  · intro h
    simp [circuito_gpt, circuito_paso, h]
  · intro h
    constructor <;> simp [circuito_gpt, circuito_paso, Nat.not_lt.mpr h]

/-- Witness for C3 at concrete times. -/
theorem circuito_gpt_tres_fallos_witness :
    circuito_gpt (.abierto 2) 10 .exito = (.circuitOpenError, .abierto 2) ∧
    circuito_gpt (.abierto 2) 70 .exito = (.respuesta .exito, .cerrado 0) :=
  ⟨(circuito_gpt_tres_fallos 0 1 2 10 .exito).2.2.2.1 (by decide),
   ((circuito_gpt_tres_fallos 0 1 2 70 .exito).2.2.2.2 (by decide)).1⟩

/-- The comparison `comparaDescendente` is transitive. -/
theorem comparaDescendente_trans {σ β : Type} [LinearOrder σ]
    (a b c : σ × β) (hab : comparaDescendente a b) (hbc : comparaDescendente b c) :
    comparaDescendente a c := by
  simp only [comparaDescendente, decide_eq_true_eq] at *
  exact le_trans hbc hab

/-- The comparison `comparaDescendente` is total. -/
theorem comparaDescendente_total {σ β : Type} [LinearOrder σ] (a b : σ × β) :
    comparaDescendente a b || comparaDescendente b a := by
  simp only [comparaDescendente, Bool.or_eq_true, decide_eq_true_eq]
  exact (le_total b.1 a.1).imp id id

/-- C4: ranking.  The selected list has length `min k` (number of candidates);
the sort orders scores descendingly; and the sort is stable: any two
candidates appearing in the list in a given order with equal scores keep that
order after sorting (first-seen wins). -/
theorem seleccionar_top_k_ordenado_estable {σ : Type} [LinearOrder σ]
    (resultados : List (σ × String)) (k : ℕ) (a b : σ × String)
    (hab : [a, b].Sublist resultados) (hscore : a.1 = b.1) :
    (seleccionar_top_k resultados k).length = min k resultados.length ∧
    ((ordenar_resultados resultados).map Prod.fst).Sorted (· ≥ ·) ∧
    [a, b].Sublist (ordenar_resultados resultados) := by
  refine ⟨?_, ?_, ?_⟩
  · simp [seleccionar_top_k, ordenar_resultados]
  · rw [List.Sorted, List.pairwise_map]
    have h : (resultados.mergeSort comparaDescendente).Pairwise
        fun a b => comparaDescendente a b :=
      List.sorted_mergeSort comparaDescendente_trans comparaDescendente_total resultados
    exact h.imp fun hxy => by
      simpa [comparaDescendente] using hxy
  · exact List.pair_sublist_mergeSort comparaDescendente_trans comparaDescendente_total
      (by simp [comparaDescendente, hscore]) hab

/-- Witness for C4: two equal-scored candidates in a three-candidate list. -/
theorem seleccionar_top_k_ordenado_estable_witness :
    [((1 : ℕ), "a"), (1, "b")].Sublist [(1, "a"), (1, "b"), (2, "c")] ∧
    ((1 : ℕ), "a").1 = ((1 : ℕ), "b").1 ∧
    ((seleccionar_top_k [((1 : ℕ), "a"), (1, "b"), (2, "c")] 2).length
        = min 2 ([((1 : ℕ), "a"), (1, "b"), (2, "c")] : List (ℕ × String)).length ∧
      ((ordenar_resultados [((1 : ℕ), "a"), (1, "b"), (2, "c")]).map Prod.fst).Sorted (· ≥ ·) ∧
      [((1 : ℕ), "a"), (1, "b")].Sublist (ordenar_resultados [(1, "a"), (1, "b"), (2, "c")])) := by
  refine ⟨?_, rfl, seleccionar_top_k_ordenado_estable _ 2 _ _ ?_ rfl⟩ <;>
    exact ((List.nil_sublist _).cons₂ _).cons₂ _

/-- Reading a whitespace-free chunk just accumulates it (reversed). -/
theorem wordsOfGo_append (w : List Char) (hw : ∀ c ∈ w, noEsEspacio c) :
    ∀ (acc rest : List Char),
      wordsOfGo acc (w ++ rest) = wordsOfGo (w.reverse ++ acc) rest := by
  induction w with
  | nil => intro acc rest; simp
  | cons c w ih =>
    intro acc rest
    have hc : c.isWhitespace = false := by
      have := hw c (List.mem_cons_self c w)
      simpa [noEsEspacio] using this
    simp only [List.cons_append, wordsOfGo, hc, Bool.false_eq_true, if_false]
    show wordsOfGo (c :: acc) (w ++ rest) = wordsOfGo ((c :: w).reverse ++ acc) rest
    rw [ih (fun d hd => hw d (List.mem_cons_of_mem c hd)) (c :: acc) rest]
    simp [List.reverse_cons, List.append_assoc]

/-- Every word produced by `wordsOfGo` (from a whitespace-free accumulator) is
nonempty and whitespace-free. -/
theorem wordsOfGo_buenas :
    ∀ (l acc : List Char), (∀ c ∈ acc, noEsEspacio c) →
      ∀ w ∈ wordsOfGo acc l, w ≠ [] ∧ ∀ c ∈ w, noEsEspacio c := by
  intro l
  induction l with
  | nil =>
    intro acc hacc w hw
    cases acc with
    | nil => simp [wordsOfGo] at hw
    | cons a as =>
      simp [wordsOfGo] at hw
      subst hw
      refine ⟨by simp, fun c hc => hacc c ?_⟩
      rcases List.mem_append.mp hc with h1 | h1
      · exact List.mem_cons_of_mem a (List.mem_reverse.mp h1)
      · simp only [List.mem_singleton] at h1
        simp [h1]
  | cons c cs ih =>
    intro acc hacc w hw
    by_cases hc : c.isWhitespace
    · simp only [wordsOfGo, hc, if_true] at hw
      by_cases hacc0 : acc.isEmpty
      · simp only [hacc0, if_true] at hw
        exact ih [] (by simp) w hw
      · simp only [hacc0, Bool.false_eq_true, if_false] at hw
        rcases List.mem_cons.mp hw with rfl | hw
        · refine ⟨?_, fun d hd => hacc d (List.mem_reverse.mp hd)⟩
          intro hnil
          rw [List.reverse_eq_nil_iff] at hnil
          subst hnil
          exact hacc0 rfl
        · exact ih [] (by simp) w hw
    · simp only [wordsOfGo, hc, if_false] at hw
      refine ih (c :: acc) ?_ w hw
      intro d hd
      rcases List.mem_cons.mp hd with rfl | hd
      · simpa [noEsEspacio] using hc
      · exact hacc d hd

/-- Joining nonempty whitespace-free words with single spaces and re-splitting
recovers exactly the words. -/
theorem wordsOf_pyJoin (ws : List (List Char))
    (h : ∀ w ∈ ws, w ≠ [] ∧ ∀ c ∈ w, noEsEspacio c) :
    wordsOf (pyJoin [' '] ws) = ws := by
  induction ws with
  | nil => rfl
  | cons w ws ih =>
    obtain ⟨hne, hw⟩ := h w (List.mem_cons_self w ws)
    have hrev : w.reverse.isEmpty = false := by
      cases hwrev : w.reverse with
      | nil => exact absurd (List.reverse_eq_nil_iff.mp hwrev) hne
      | cons a as => rfl
    cases ws with
    | nil =>
      show wordsOfGo [] (pyJoin [' '] [w]) = [w]
      have hid : pyJoin [' '] [w] = w ++ [] := by simp [pyJoin]
      rw [hid, wordsOfGo_append w hw [] []]
      simp [wordsOfGo, hrev]
    | cons w2 ws2 =>
      have hjoin : pyJoin [' '] (w :: w2 :: ws2)
          = w ++ (' ' :: pyJoin [' '] (w2 :: ws2)) := by
        simp [pyJoin]
      show wordsOfGo [] (pyJoin [' '] (w :: w2 :: ws2)) = w :: w2 :: ws2
      rw [hjoin, wordsOfGo_append w hw []]
      have hsp : (' ').isWhitespace = true := by decide
      simp only [wordsOfGo, hsp, if_true, List.append_nil, hrev,
        Bool.false_eq_true, if_false, List.reverse_reverse]
      show w :: wordsOf (pyJoin [' '] (w2 :: ws2)) = w :: w2 :: ws2
      rw [ih fun u hu => h u (List.mem_cons_of_mem w hu)]

/-- C5: truncation law.  The words of `truncar_contexto contexto m` are
exactly the first `m` words of `contexto`, so its word count is
`min m` (word count of `contexto`); this applies in particular to the
assembled context `pyJoinStr "\n\n" docs` built in
`obtener_contexto_relevante`. -/
theorem truncar_contexto_ley (contexto : String) (max_palabras : ℕ) :
    palabras (truncar_contexto contexto max_palabras)
      = (palabras contexto).take max_palabras ∧
    (palabras (truncar_contexto contexto max_palabras)).length
      = min max_palabras (palabras contexto).length := by
  have hmain : palabras (truncar_contexto contexto max_palabras)
      = (palabras contexto).take max_palabras := by
    unfold truncar_contexto
    by_cases h : max_palabras < (wordsOf contexto.data).length
    · simp only [h, if_true]
      unfold palabras
      have hdata : (⟨pyJoin [' '] ((wordsOf contexto.data).take max_palabras)⟩ : String).data
          = pyJoin [' '] ((wordsOf contexto.data).take max_palabras) := rfl
      have hbuenas : ∀ w ∈ (wordsOf contexto.data).take max_palabras,
          w ≠ [] ∧ ∀ c ∈ w, noEsEspacio c := fun w hwmem =>
        wordsOfGo_buenas contexto.data [] (by simp) w (List.take_subset _ _ hwmem)
      rw [hdata, wordsOf_pyJoin _ hbuenas, List.map_take]
    · simp only [h, if_false]
      have hlen : (palabras contexto).length ≤ max_palabras := by
        have := Nat.le_of_not_lt h
        simpa [palabras] using this
      rw [List.take_of_length_le hlen]
  exact ⟨hmain, by rw [hmain, List.length_take, palabras]⟩

/-- A sum of squares is nonnegative. -/
theorem sumaCuadrados_nonneg (v : List ℝ) : 0 ≤ sumaCuadrados v := by
  refine List.sum_nonneg ?_
  intro x hx
  simp only [List.mem_map] at hx
  obtain ⟨a, _, rfl⟩ := hx
  positivity

/-- The norm is nonnegative. -/
theorem norma_nonneg (v : List ℝ) : 0 ≤ norma v := Real.sqrt_nonneg _

/-- The norm vanishes iff the sum of squares does. -/
theorem norma_eq_zero_iff (v : List ℝ) : norma v = 0 ↔ sumaCuadrados v = 0 :=
  Real.sqrt_eq_zero (sumaCuadrados_nonneg v)

/-- Cauchy-Schwarz for the componentwise product of two lists (of any
lengths: `zipWith` stops at the shorter one). -/
theorem cauchy_schwarz_listas (v1 v2 : List ℝ) :
    productoPunto v1 v2 ^ 2 ≤ sumaCuadrados v1 * sumaCuadrados v2 := by
  induction v1 generalizing v2 with
  | nil => simp [productoPunto, sumaCuadrados]
  | cons a t1 ih =>
    cases v2 with
    | nil =>
      simp [productoPunto, sumaCuadrados]
    | cons b t2 =>
      have hA := sumaCuadrados_nonneg t1
      have hB := sumaCuadrados_nonneg t2
      have hG := ih t2
      simp only [productoPunto, sumaCuadrados, List.zipWith_cons_cons, List.map_cons,
        List.sum_cons] at hG hA hB ⊢
      set S := (List.zipWith (fun a b => a * b) t1 t2).sum with hSdef
      set A := (List.map (fun x => x ^ 2) t1).sum with hAdef
      set B := (List.map (fun x => x ^ 2) t2).sum with hBdef
      by_cases hB0 : B = 0
      · have hS2 : S ^ 2 = 0 := le_antisymm (by nlinarith [hG]) (sq_nonneg S)
        have hS0 : S = 0 := (pow_eq_zero_iff (two_ne_zero)).mp hS2
        rw [hS0, hB0]
        nlinarith [mul_nonneg hA (sq_nonneg b)]
      · have hBpos : 0 < B := lt_of_le_of_ne hB (Ne.symm hB0)
        nlinarith [sq_nonneg (a * B - b * S), mul_nonneg (sq_nonneg b) (sub_nonneg.mpr hG),
          mul_nonneg hB (sub_nonneg.mpr hG), hBpos]

/-- The dot product of a vector with itself is its sum of squares. -/
theorem productoPunto_self (v : List ℝ) : productoPunto v v = sumaCuadrados v := by
  induction v with
  | nil => rfl
  | cons a t ih =>
    simp only [productoPunto, sumaCuadrados, List.zipWith_cons_cons, List.map_cons,
      List.sum_cons] at ih ⊢
    rw [ih, pow_two]

/-- C6: the cosine-similarity contract.  When either vector has zero norm the
guarded division returns exactly `0.0`; otherwise the value is
`dot / (norm * norm)`; in all cases the value lies in `[-1, 1]`; and the
similarity of a nonzero vector with itself is exactly `1`. -/
theorem similitud_coseno_contrato (v1 v2 : List ℝ) (h : v1.length = v2.length) :
    ((norma v1 = 0 ∨ norma v2 = 0) → similitud_coseno v1 v2 = 0) ∧
    (¬(norma v1 = 0 ∨ norma v2 = 0) →
      similitud_coseno v1 v2 = productoPunto v1 v2 / (norma v1 * norma v2)) ∧
    -1 ≤ similitud_coseno v1 v2 ∧ similitud_coseno v1 v2 ≤ 1 ∧
    (v1 = v2 → norma v1 ≠ 0 → similitud_coseno v1 v2 = 1) := by
  have habs : |similitud_coseno v1 v2| ≤ 1 := by
    unfold similitud_coseno
    split
    · simp
    · rename_i hno
      push_neg at hno
      obtain ⟨h1, h2⟩ := hno
      have hn1 : 0 < norma v1 := lt_of_le_of_ne (norma_nonneg v1) (Ne.symm h1)
      have hn2 : 0 < norma v2 := lt_of_le_of_ne (norma_nonneg v2) (Ne.symm h2)
      have hsq : (norma v1 * norma v2) ^ 2 = sumaCuadrados v1 * sumaCuadrados v2 := by
        rw [mul_pow, norma, norma, Real.sq_sqrt (sumaCuadrados_nonneg v1),
          Real.sq_sqrt (sumaCuadrados_nonneg v2)]
      have hbound : |productoPunto v1 v2| ≤ norma v1 * norma v2 := by
        calc |productoPunto v1 v2|
            = Real.sqrt (productoPunto v1 v2 ^ 2) := (Real.sqrt_sq_eq_abs _).symm
          _ ≤ Real.sqrt ((norma v1 * norma v2) ^ 2) :=
              Real.sqrt_le_sqrt (by rw [hsq]; exact cauchy_schwarz_listas v1 v2)
          _ = |norma v1 * norma v2| := Real.sqrt_sq_eq_abs _
          _ = norma v1 * norma v2 := abs_of_pos (mul_pos hn1 hn2)
      rw [abs_div, abs_of_pos (mul_pos hn1 hn2), div_le_one (mul_pos hn1 hn2)]
      exact hbound
  refine ⟨fun hz => by simp [similitud_coseno, hz],
    fun hz => by simp [similitud_coseno, hz], (abs_le.mp habs).1, (abs_le.mp habs).2, ?_⟩
  intro hv hn
  subst hv
  have hsum : sumaCuadrados v1 ≠ 0 := fun hc => hn ((norma_eq_zero_iff v1).mpr hc)
  have hno : ¬(norma v1 = 0 ∨ norma v1 = 0) := by simp [hn]
  rw [similitud_coseno, if_neg hno, productoPunto_self, norma,
    Real.mul_self_sqrt (sumaCuadrados_nonneg v1), div_self hsum]

/-- Witness for C6 at the orthogonal pair `[1, 0]`, `[0, 1]`. -/
theorem similitud_coseno_contrato_witness :
    ([(1 : ℝ), 0].length = [(0 : ℝ), 1].length) ∧
    (((norma [(1 : ℝ), 0] = 0 ∨ norma [(0 : ℝ), 1] = 0) →
        similitud_coseno [(1 : ℝ), 0] [(0 : ℝ), 1] = 0) ∧
      (¬(norma [(1 : ℝ), 0] = 0 ∨ norma [(0 : ℝ), 1] = 0) →
        similitud_coseno [(1 : ℝ), 0] [(0 : ℝ), 1]
          = productoPunto [(1 : ℝ), 0] [(0 : ℝ), 1]
              / (norma [(1 : ℝ), 0] * norma [(0 : ℝ), 1])) ∧
      -1 ≤ similitud_coseno [(1 : ℝ), 0] [(0 : ℝ), 1] ∧
      similitud_coseno [(1 : ℝ), 0] [(0 : ℝ), 1] ≤ 1 ∧
      ([(1 : ℝ), 0] = [(0 : ℝ), 1] → norma [(1 : ℝ), 0] ≠ 0 →
        similitud_coseno [(1 : ℝ), 0] [(0 : ℝ), 1] = 1)) :=
  ⟨rfl, similitud_coseno_contrato [1, 0] [0, 1] rfl⟩

/-- C8 counterexample: no dimension validation happens.  With the zero vector
`[0, 0]` against the three-dimensional `[1, 1, 1]`, the zero-norm guard fires
first and `similitud_coseno` silently returns `0.0` — no error of any kind,
let alone a dedicated `DimensionMismatchError` (which exists nowhere in the
source), despite the dimension mismatch. -/
theorem similitud_dimension_contraejemplo :
    [(0 : ℝ), 0].length ≠ [(1 : ℝ), 1, 1].length ∧
    similitud_coseno_np [(0 : ℝ), 0] [(1 : ℝ), 1, 1] = .ok 0 := by
  constructor
  · simp
  · have h0 : norma [(0 : ℝ), 0] = 0 := by
      simp [norma, sumaCuadrados]
    simp [similitud_coseno_np, h0]

/-- C8 (amended): `similitud_coseno` performs no dimension validation.  On
vectors of different lengths it returns `0.0` when either norm is zero, and
otherwise `np.dot` raises a generic `ValueError` (not a
`DimensionMismatchError`, which the code does not define) that
`obtener_contexto_relevante` re-raises rather than handles. -/
theorem similitud_dimension_sin_validacion (v1 v2 : List ℝ)
    (h : v1.length ≠ v2.length) :
    ((norma v1 = 0 ∨ norma v2 = 0) → similitud_coseno_np v1 v2 = .ok 0) ∧
    (¬(norma v1 = 0 ∨ norma v2 = 0) →
      similitud_coseno_np v1 v2 = .error .valueError) := by
  constructor
  · intro hz
    simp [similitud_coseno_np, hz]
  · intro hz
    simp [similitud_coseno_np, hz, h]

/-- Witness for C8's amended statement at `[1, 1]` versus `[1, 1, 1]`. -/
theorem similitud_dimension_sin_validacion_witness :
    ([(1 : ℝ), 1].length ≠ [(1 : ℝ), 1, 1].length) ∧
    (((norma [(1 : ℝ), 1] = 0 ∨ norma [(1 : ℝ), 1, 1] = 0) →
        similitud_coseno_np [(1 : ℝ), 1] [(1 : ℝ), 1, 1] = .ok 0) ∧
      (¬(norma [(1 : ℝ), 1] = 0 ∨ norma [(1 : ℝ), 1, 1] = 0) →
        similitud_coseno_np [(1 : ℝ), 1] [(1 : ℝ), 1, 1] = .error .valueError)) :=
  ⟨by simp, similitud_dimension_sin_validacion [1, 1] [1, 1, 1] (by simp)⟩

/-- `filterMap` ignores elements that the filter drops when those elements
map to `none` anyway. -/
theorem filterMap_filter_de_invalidos {α β : Type} (f : α → Option β)
    (p : α → Bool) (h : ∀ a, p a = false → f a = none) :
    ∀ l : List α, (l.filter p).filterMap f = l.filterMap f := by
  intro l
  induction l with
  | nil => rfl
  | cons a l ih =>
    cases hp : p a with
    | true => simp [List.filter_cons, hp, List.filterMap_cons, ih]
    | false => simp [List.filter_cons, hp, List.filterMap_cons, h a hp, ih]

/-- Rows none of which carries a valid embedding produce the empty context. -/
theorem procesar_filas_invalidas {ε σ : Type} [LinearOrder σ]
    (sim : List ε → List ε → σ) (qv : List ε) (rows : List (Doc ε)) (k : ℕ)
    (h : ∀ d ∈ rows, valido d = none) :
    procesar_filas sim qv rows k = "" := by
  unfold procesar_filas
  have hres : (rows.filterMap fun d =>
      (valido d).map fun e => (sim qv e, d.contenido)) = [] := by
    rw [List.filterMap_eq_nil_iff]
    intro d hd
    rw [h d hd]
    rfl
  simp [hres]

/-- C9: candidate retrieval.  With the embedding and RPC succeeding, the
retrieval issues exactly one search request, for `k * 2` candidates, and its
result is `procesar_filas` of the returned rows; zero rows yield the empty
context string; rows none of which has a valid embedding yield the empty
context string; and rows with an invalid embedding take no part in the
result (processing the rows equals processing only the valid ones). -/
theorem obtener_contexto_recuperacion {ε σ : Type} [LinearOrder σ]
    (env : Entorno ε σ) (sim : List ε → List ε → σ) (pregunta : String) (k : ℕ)
    (qv : List ε) (rows : List (Doc ε))
    (hv : env.vectorizar pregunta = .ok qv)
    (hr : env.vector_search qv (k * 2) = .ok rows) :
    obtener_contexto_relevante env sim pregunta k
      = (.ok (procesar_filas sim qv rows k),
         [.llamadaEmbedding, .llamadaBusqueda (k * 2)]) ∧
    (rows = [] → procesar_filas sim qv rows k = "") ∧
    ((∀ d ∈ rows, valido d = none) → procesar_filas sim qv rows k = "") ∧
    procesar_filas sim qv rows k
      = procesar_filas sim qv (rows.filter fun d => (valido d).isSome) k := by
  have hdrop : ∀ d : Doc ε, ((valido d).isSome : Bool) = false →
      ((valido d).map fun e => (sim qv e, d.contenido)) = none := by
    intro d hd
    have hnone : valido d = none := Option.not_isSome_iff_eq_none.mp (by simp [hd])
    rw [hnone]
    rfl
  have hmap : ((rows.filter fun d => (valido d).isSome).filterMap fun d =>
      (valido d).map fun e => (sim qv e, d.contenido))
      = rows.filterMap fun d => (valido d).map fun e => (sim qv e, d.contenido) :=
    filterMap_filter_de_invalidos _ _ hdrop rows
  refine ⟨by simp [obtener_contexto_relevante, hv, hr], ?_,
    procesar_filas_invalidas sim qv rows k, ?_⟩
  · intro h
    subst h
    rfl
  · unfold procesar_filas
    by_cases h1 : rows.isEmpty
    · rw [List.isEmpty_iff.mp h1]
      rfl
    · by_cases h2 : (rows.filterMap fun d =>
          (valido d).map fun e => (sim qv e, d.contenido)).isEmpty
      · simp [h1, h2, hmap]
      · have h3 : ((rows.filter fun d => (valido d).isSome).isEmpty) = false := by
          rw [Bool.eq_false_iff]
          intro hcon
          rw [List.isEmpty_iff.mp hcon] at hmap
          rw [List.isEmpty_iff] at h2
          exact h2 (by rw [← hmap]; rfl)
        simp [h1, h2, hmap, h3]

/-- Witness for C9 with the concrete environment and no returned rows. -/
theorem obtener_contexto_recuperacion_witness :
    entornoPrueba.vectorizar "hola" = .ok [1] ∧
    entornoPrueba.vector_search [1] (3 * 2) = .ok [] ∧
    (obtener_contexto_relevante entornoPrueba simPrueba "hola" 3
        = (.ok (procesar_filas simPrueba [1] [] 3),
           [.llamadaEmbedding, .llamadaBusqueda (3 * 2)]) ∧
      (([] : List (Doc ℕ)) = [] → procesar_filas simPrueba [1] [] 3 = "") ∧
      ((∀ d ∈ ([] : List (Doc ℕ)), valido d = none) →
        procesar_filas simPrueba [1] [] 3 = "") ∧
      procesar_filas simPrueba [1] [] 3
        = procesar_filas simPrueba [1]
            (([] : List (Doc ℕ)).filter fun d => (valido d).isSome) 3) :=
  ⟨rfl, rfl, obtener_contexto_recuperacion entornoPrueba simPrueba "hola" 3 [1] [] rfl rfl⟩

/-- C1: the orchestrator never propagates an exception — it always returns a
string, and that string is the invalid-question message, the generic failure
message, a cached answer, or an answer produced by the completion model.
Thus exactly two fallback strings are ever user-visible. -/
theorem responder_pregunta_nunca_lanza {ε σ : Type} [LinearOrder σ]
    (env : Entorno ε σ) (sim : List ε → List ε → σ)
    (cache : List (String × String)) (pregunta : String) (user_id : Option String) :
    (responder_pregunta env sim cache pregunta user_id).1 = mensajePreguntaInvalida ∨
    (responder_pregunta env sim cache pregunta user_id).1 = mensajeErrorGenerico ∨
    List.lookup (sanitizar_pregunta pregunta) cache
      = some (responder_pregunta env sim cache pregunta user_id).1 ∨
    ∃ contexto, env.gpt (sanitizar_pregunta pregunta) contexto
      = .ok (responder_pregunta env sim cache pregunta user_id).1 := by
  by_cases hp : sanitizar_pregunta pregunta = ""
  · exact Or.inl (by simp [responder_pregunta, hp])
  · rcases hc : List.lookup (sanitizar_pregunta pregunta) cache with _ | r
    · rcases hconn : env.conectar_supabase with e | u
      · refine Or.inr (Or.inl ?_)
        simp [responder_pregunta, hp, hc, hconn]
      · rcases hobt : obtener_contexto_relevante env sim (sanitizar_pregunta pregunta) TOP_K
          with ⟨e | ctx, llam⟩
        · refine Or.inr (Or.inl ?_)
          simp [responder_pregunta, hp, hc, hconn, hobt]
        · rcases hg : env.gpt (sanitizar_pregunta pregunta) ctx with e | resp
          · refine Or.inr (Or.inl ?_)
            simp [responder_pregunta, hp, hc, hconn, hobt, hg]
          · refine Or.inr (Or.inr (Or.inr ⟨ctx, ?_⟩))
            have hval : (responder_pregunta env sim cache pregunta user_id).1 = resp := by
              simp [responder_pregunta, hp, hc, hconn, hobt, hg]
            rw [hval]
            exact hg
    · refine Or.inr (Or.inr (Or.inl ?_))
      have hval : (responder_pregunta env sim cache pregunta user_id).1 = r := by
        simp [responder_pregunta, hp, hc]
      rw [hval]

/-- C2: cache idempotence.  If a first call misses the cache and succeeds, it
returns the generated answer and stores it under the sanitized question; a
second call with the same question (under any user id) returns the identical
string, leaves the cache unchanged, and performs no external call at all. -/
theorem cache_idempotente {ε σ : Type} [LinearOrder σ]
    (env : Entorno ε σ) (sim : List ε → List ε → σ)
    (cache : List (String × String)) (pregunta contexto respuesta : String)
    (llamadas : List Llamada) (u1 u2 : Option String)
    (hp : sanitizar_pregunta pregunta ≠ "")
    (hmiss : List.lookup (sanitizar_pregunta pregunta) cache = none)
    (hconn : env.conectar_supabase = .ok ())
    (hctx : obtener_contexto_relevante env sim (sanitizar_pregunta pregunta) TOP_K
      = (.ok contexto, llamadas))
    (hgen : env.gpt (sanitizar_pregunta pregunta) contexto = .ok respuesta) :
    responder_pregunta env sim cache pregunta u1
      = (respuesta, (sanitizar_pregunta pregunta, respuesta) :: cache,
         llamadas ++ [.llamadaGpt (sanitizar_pregunta pregunta) contexto]) ∧
    responder_pregunta env sim
        ((sanitizar_pregunta pregunta, respuesta) :: cache) pregunta u2
      = (respuesta, (sanitizar_pregunta pregunta, respuesta) :: cache, []) := by
  constructor
  · simp [responder_pregunta, hp, hmiss, hconn, hctx, hgen]
  · have hhit : List.lookup (sanitizar_pregunta pregunta)
        ((sanitizar_pregunta pregunta, respuesta) :: cache) = some respuesta := by
      simp
    simp [responder_pregunta, hp, hhit]

/-- Witness for C2 with the concrete environment. -/
theorem cache_idempotente_witness :
    (sanitizar_pregunta "hola" ≠ "") ∧
    (List.lookup (sanitizar_pregunta "hola") ([] : List (String × String)) = none) ∧
    entornoPrueba.conectar_supabase = .ok () ∧
    obtener_contexto_relevante entornoPrueba simPrueba (sanitizar_pregunta "hola") TOP_K
      = (.ok "", [.llamadaEmbedding, .llamadaBusqueda (TOP_K * 2)]) ∧
    entornoPrueba.gpt (sanitizar_pregunta "hola") "" = .ok "la respuesta" ∧
    (responder_pregunta entornoPrueba simPrueba [] "hola" none
        = ("la respuesta", [(sanitizar_pregunta "hola", "la respuesta")],
           [.llamadaEmbedding, .llamadaBusqueda (TOP_K * 2),
            .llamadaGpt (sanitizar_pregunta "hola") ""]) ∧
      responder_pregunta entornoPrueba simPrueba
          [(sanitizar_pregunta "hola", "la respuesta")] "hola" none
        = ("la respuesta", [(sanitizar_pregunta "hola", "la respuesta")], [])) :=
  ⟨by decide, rfl, rfl, rfl, rfl,
    cache_idempotente entornoPrueba simPrueba [] "hola" "" "la respuesta"
      [.llamadaEmbedding, .llamadaBusqueda (TOP_K * 2)] none none
      (by decide) rfl rfl rfl rfl⟩

/-- C10: an empty retrieved context does not end the pipeline early.  With a
nonempty sanitized question, a cache miss, and a retrieval whose rows carry
no valid embedding (in particular, zero rows), the orchestrator still invokes
the completion model with the empty context, caches its answer, and returns
it. -/
theorem contexto_vacio_llama_gpt {ε σ : Type} [LinearOrder σ]
    (env : Entorno ε σ) (sim : List ε → List ε → σ)
    (cache : List (String × String)) (pregunta : String) (qv : List ε)
    (rows : List (Doc ε)) (respuesta : String) (user_id : Option String)
    (hp : sanitizar_pregunta pregunta ≠ "")
    (hmiss : List.lookup (sanitizar_pregunta pregunta) cache = none)
    (hconn : env.conectar_supabase = .ok ())
    (hv : env.vectorizar (sanitizar_pregunta pregunta) = .ok qv)
    (hr : env.vector_search qv (TOP_K * 2) = .ok rows)
    (hinv : ∀ d ∈ rows, valido d = none)
    (hgen : env.gpt (sanitizar_pregunta pregunta) "" = .ok respuesta) :
    responder_pregunta env sim cache pregunta user_id
      = (respuesta, (sanitizar_pregunta pregunta, respuesta) :: cache,
         [.llamadaEmbedding, .llamadaBusqueda (TOP_K * 2),
          .llamadaGpt (sanitizar_pregunta pregunta) ""]) := by
  have hctx : obtener_contexto_relevante env sim (sanitizar_pregunta pregunta) TOP_K
      = (.ok "", [.llamadaEmbedding, .llamadaBusqueda (TOP_K * 2)]) := by
    simp [obtener_contexto_relevante, hv, hr,
      procesar_filas_invalidas sim qv rows TOP_K hinv]
  simp [responder_pregunta, hp, hmiss, hconn, hctx, hgen]

/-- Witness for C10 with the concrete environment (zero rows returned). -/
theorem contexto_vacio_llama_gpt_witness :
    (sanitizar_pregunta "buenas" ≠ "") ∧
    (List.lookup (sanitizar_pregunta "buenas") ([] : List (String × String)) = none) ∧
    entornoPrueba.conectar_supabase = .ok () ∧
    entornoPrueba.vectorizar (sanitizar_pregunta "buenas") = .ok [1] ∧
    entornoPrueba.vector_search [1] (TOP_K * 2) = .ok [] ∧
    (∀ d ∈ ([] : List (Doc ℕ)), valido d = none) ∧
    entornoPrueba.gpt (sanitizar_pregunta "buenas") "" = .ok "la respuesta" ∧
    responder_pregunta entornoPrueba simPrueba [] "buenas" none
      = ("la respuesta", [(sanitizar_pregunta "buenas", "la respuesta")],
         [.llamadaEmbedding, .llamadaBusqueda (TOP_K * 2),
          .llamadaGpt (sanitizar_pregunta "buenas") ""]) :=
  ⟨by decide, rfl, rfl, rfl, rfl, by simp, rfl,
    contexto_vacio_llama_gpt entornoPrueba simPrueba [] "buenas" [1] [] "la respuesta" none
      (by decide) rfl rfl rfl rfl (by simp) rfl⟩

end AsistenteFincas
